/-
Verification of the live-transcription WebSocket proxy server (src/server.ts).

The development shallowly embeds the server's pure helpers and its
event-driven handlers:

* `validateWsToken` — the subprotocol/JWT gate (src/server.ts lines 68-80);
  the external `jsonwebtoken.verify` call (signature and expiry check against
  the server secret and the current time) is abstracted as a boolean oracle
  `AuthEnv.verify`, matching its use as an opaque pass/fail check.
* `buildDeepgramUrl` — the upstream URL builder (lines 109-133).  A URL's
  query string is modelled as an ordered list of key/value pairs with the
  `URLSearchParams.get` (first match) and `URLSearchParams.set`
  (replace-first, drop-rest, else append) semantics.  JavaScript's `||`
  fallback on a nullable string (where the empty string is falsy) is
  modelled by `jsOr`.
* the per-connection WebSocket handlers (`open`, `message`, `close` and the
  Deepgram-socket listeners, lines 307-399) as a single dispatch function
  `handle` over session states, emitting the externally visible calls as a
  list of `Action`s.
* the upgrade gate in `fetch` (lines 258-288) plus the runtime rule that
  the `open` handler fires only on an upgraded connection, as a small-step
  relation `Step` with reachability `Reach`.
* `gracefulShutdown` and the four process-level triggers (lines 411-446).
-/
import Mathlib

namespace LiveTranscription

/-! ## Query parameter model (URLSearchParams) -/

/-- An ordered multiset of query parameters, as `URLSearchParams` holds them. -/
abbrev Params := List (String × String)

/-- `URLSearchParams.get`: the value of the first pair with the given key,
or `none` when the key is absent (JS `null`). -/
def getParam (ps : Params) (k : String) : Option String :=
  (ps.find? (fun kv => kv.1 == k)).map (fun kv => kv.2)

/-- `URLSearchParams.set`: replace the value of the first pair with the given
key and delete the other pairs with that key; append when the key is absent. -/
def setParam (ps : Params) (k v : String) : Params :=
  match ps.findIdx? (fun kv => kv.1 == k) with
  | none => ps ++ [(k, v)]
  | some i => ps.take i ++ [(k, v)] ++ (ps.drop (i + 1)).filter (fun kv => kv.1 != k)

/-- JavaScript `x || d` for `x : string | null`: the empty string and `null`
are falsy, every other string is truthy. -/
def jsOr (x : Option String) (d : String) : String :=
  match x with
  | none => d
  | some s => if s = "" then d else s

/-! ## Configuration -/

/-- The server-held configuration consumed by the relay core: the upstream
credential `DEEPGRAM_API_KEY` (`CONFIG.deepgramApiKey` in src/server.ts). -/
structure Config where
  deepgramApiKey : String

/-- `CONFIG.deepgramSttUrl`, the fixed upstream endpoint. -/
def deepgramSttUrl : String := "wss://api.deepgram.com/v1/listen"

/-- The upstream connection URL: a fixed base plus its query parameters
(`new URL(...)` plus `searchParams` in the source). -/
structure UrlModel where
  base : String
  params : Params
deriving DecidableEq

/-! ## Upstream URL builder (src/server.ts `buildDeepgramUrl`, lines 109-133) -/

/-- `buildDeepgramUrl(queryParams)`: start from the fixed endpoint, set the
`token` auth parameter from the server-held key, set the six required
transcription parameters with `client value || default`, and set the three
optional parameters only when the client supplied them (`!== null`). -/
def buildDeepgramUrl (cfg : Config) (queryParams : Params) : UrlModel :=
  let ps : Params := []
  let ps := setParam ps "token" cfg.deepgramApiKey
  let ps := setParam ps "model" (jsOr (getParam queryParams "model") "nova-3")
  let ps := setParam ps "language" (jsOr (getParam queryParams "language") "en")
  let ps := setParam ps "encoding" (jsOr (getParam queryParams "encoding") "linear16")
  let ps := setParam ps "sample_rate" (jsOr (getParam queryParams "sample_rate") "16000")
  let ps := setParam ps "channels" (jsOr (getParam queryParams "channels") "1")
  let ps := setParam ps "smart_format" (jsOr (getParam queryParams "smart_format") "true")
  let ps := match getParam queryParams "punctuate" with
            | some v => setParam ps "punctuate" v
            | none => ps
  let ps := match getParam queryParams "diarize" with
            | some v => setParam ps "diarize" v
            | none => ps
  let ps := match getParam queryParams "filler_words" with
            | some v => setParam ps "filler_words" v
            | none => ps
  ⟨deepgramSttUrl, ps⟩

/-- The single query-parameter entry contributed by one optional client
option: present in the built URL exactly when present in the options. -/
def optEntry (queryParams : Params) (k : String) : Params :=
  match getParam queryParams k with
  | some v => [(k, v)]
  | none => []

/-- The six required transcription parameters and their documented
defaults (src/server.ts lines 116-121). -/
def requiredDefaults : List (String × String) :=
  [("model", "nova-3"), ("language", "en"), ("encoding", "linear16"),
   ("sample_rate", "16000"), ("channels", "1"), ("smart_format", "true")]

/-! ## Token validator (src/server.ts `validateWsToken`, lines 68-80)

JavaScript string primitives used by the validator, embedded as structural
recursion over the character list so that concrete instances evaluate. -/

def splitAux (sep : Char) : List Char → List Char → List String
  | [], acc => [String.mk acc.reverse]
  | c :: cs, acc =>
      if c = sep then String.mk acc.reverse :: splitAux sep cs []
      else splitAux sep cs (c :: acc)

/-- JS `s.split(sep)` for a one-character separator: the chunks between
separator occurrences, in order (`"a,".split(",")` is `["a", ""]`). -/
def jsSplit (s : String) (sep : Char) : List String :=
  splitAux sep s.data []

/-- JS `s.trim()`: strip leading and trailing whitespace. -/
def jsTrim (s : String) : String :=
  String.mk (((s.data.dropWhile Char.isWhitespace).reverse.dropWhile
    Char.isWhitespace).reverse)

/-- JS `s.startsWith(pre)`. -/
def jsStartsWith (s pre : String) : Bool :=
  pre.data.isPrefixOf s.data

/-- JS `s.slice(n)`: the characters from index `n` on. -/
def jsSlice (s : String) (n : Nat) : String :=
  String.mk (s.data.drop n)

/-- The authentication environment: `verify tok` is the outcome of
`jwt.verify(tok, SESSION_SECRET)` — signature-valid and non-expired against
the server-held secret at the current time (`true` = no exception thrown).
The validator is a pure function of the header value given this oracle. -/
structure AuthEnv where
  verify : String → Bool

/-- `validateWsToken(protocols)`: split the `sec-websocket-protocol` header
on commas, trim each entry, take the first entry starting with
`access_token.`, verify the remainder as a JWT; return the full matched
entry on success and `null` on every failure. -/
def validateWsToken (env : AuthEnv) (protocols : Option String) : Option String :=
  match protocols with
  | none => none
  | some raw =>
    let list := (jsSplit raw ',').map jsTrim
    match list.find? (fun p => jsStartsWith p "access_token.") with
    | none => none
    | some tokenProto =>
      let token := jsSlice tokenProto ("access_token.".length)
      if env.verify token then some tokenProto else none

/-! ## Relay session model (src/server.ts `websocket` handlers, lines 302-400) -/

/-- `WebSocket.readyState` values. `opened` is `WebSocket.OPEN`. -/
inductive ReadyState where
  | connecting
  | opened
  | closing
  | closed
deriving DecidableEq

/-- A relayed frame: Bun delivers client messages as text or binary and the
relay forwards them without inspecting the payload. -/
inductive Msg where
  | text (s : String)
  | binary (bytes : List Nat)
deriving DecidableEq

/-- An externally visible call made by the server code, in program order. -/
inductive Action where
  | respond (status : Nat) (body : String)
  | registryAdd
  | registryDelete
  | createUpstream (url : UrlModel)
  | clientClose (code : Nat) (reason : String)
  | upstreamClose (code : Nat) (reason : String)
  | clientSend (m : Msg)
  | upstreamSend (m : Msg)
deriving DecidableEq

/-- The per-connection state: the client socket's state, the Deepgram socket
handle (`ws.data.deepgramWs`, `none` until the `open` handler constructs it)
with its `readyState`, the stored `ws.data.queryParams`, membership in
`activeConnections`, and the code/reason each side was last closed with. -/
structure Session where
  clientState : ReadyState
  upstream : Option ReadyState
  queryParams : Params
  registered : Bool
  clientCloseInfo : Option (Nat × String)
  upstreamCloseInfo : Option (Nat × String)
deriving DecidableEq

/-- The session created by a successful upgrade, before the `open` handler
runs: client socket open, `deepgramWs: null`, not yet in the registry. -/
def initSession (q : Params) : Session :=
  { clientState := .opened
  , upstream := none
  , queryParams := q
  , registered := false
  , clientCloseInfo := none
  , upstreamCloseInfo := none }

/-- An I/O completion dispatched to this session's handlers. -/
inductive Event where
  | clientOpen
  | upstreamOpened
  | clientMessage (m : Msg)
  | upstreamMessage (m : Msg)
  | upstreamError
  | upstreamClosed (code : Nat) (reason : String)
  | clientClosed (code : Nat) (reason : String)
deriving DecidableEq

/-- One dispatch of the handlers in src/server.ts, returning the updated
session and the calls the handler makes, in order:

* `clientOpen` — the `open` handler: `activeConnections.add(ws)`, build the
  Deepgram URL, `new WebSocket(deepgramUrl)` (a fresh socket starts in
  `CONNECTING`), store it in `ws.data.deepgramWs`.
* `upstreamOpened` — the Deepgram `open` listener only logs; the runtime
  moves the socket to `OPEN`.
* `clientMessage` — the `message` handler: forward to Deepgram only when
  `deepgramWs && deepgramWs.readyState === WebSocket.OPEN`, else do nothing
  (no buffering: the session state is unchanged).
* `upstreamMessage` — the Deepgram `message` listener: `ws.send(event.data)`
  inside try/catch (a delivery failure is swallowed).
* `upstreamError` — the Deepgram `error` listener: `ws.close(1011,
  "Deepgram connection error")` inside try/catch; closing an already
  non-open client socket has no effect.
* `upstreamClosed code reason` — the Deepgram `close` listener: the runtime
  marks the upstream socket closed, then `ws.close(event.code, event.reason)`
  inside try/catch.
* `clientClosed` — the `close` handler: `activeConnections.delete(ws)`,
  then close Deepgram with `(1000, "Client disconnected")` only when
  `deepgramWs && deepgramWs.readyState === WebSocket.OPEN`. -/
def handle (cfg : Config) (e : Event) (s : Session) : Session × List Action :=
  match e with
  | .clientOpen =>
      ({ s with registered := true, upstream := some .connecting },
       [.registryAdd, .createUpstream (buildDeepgramUrl cfg s.queryParams)])
  | .upstreamOpened =>
      ({ s with upstream := some .opened }, [])
  | .clientMessage m =>
      match s.upstream with
      | some .opened => (s, [.upstreamSend m])
      | _ => (s, [])
  | .upstreamMessage m =>
      (s, [.clientSend m])
  | .upstreamError =>
      (if s.clientState = .opened then
         { s with clientState := .closing
                , clientCloseInfo := some (1011, "Deepgram connection error") }
       else s,
       [.clientClose 1011 "Deepgram connection error"])
  | .upstreamClosed code reason =>
      (if s.clientState = .opened then
         { s with upstream := some .closed
                , clientState := .closing
                , clientCloseInfo := some (code, reason) }
       else { s with upstream := some .closed },
       [.clientClose code reason])
  | .clientClosed _ _ =>
      match s.upstream with
      | some .opened =>
          ({ s with clientState := .closed
                  , registered := false
                  , upstream := some .closing
                  , upstreamCloseInfo := some (1000, "Client disconnected") },
           [.registryDelete, .upstreamClose 1000 "Client disconnected"])
      | _ =>
          ({ s with clientState := .closed, registered := false },
           [.registryDelete])

/-! ## Connection lifecycle (src/server.ts `fetch`, lines 256-288, plus the
Bun rule that `websocket.open` fires only on an upgraded connection) -/

/-- The phase of one connection to `/api/live-transcription`. -/
inductive ConnState where
  | requested (protocols : Option String) (q : Params)
  | rejected (status : Nat)
  | session (proto : String) (s : Session)
deriving DecidableEq

/-- One step of a connection's lifecycle.  From a request, `fetch` either
answers 401 (token validation failed), answers 400 (`server.upgrade`
returned false), or upgrades, echoing the matched subprotocol; after an
upgrade, the runtime dispatches handler events (`fire`), starting with
`clientOpen`.  No step leaves a `rejected` state. -/
inductive Step (env : AuthEnv) (cfg : Config) : ConnState → List Action → ConnState → Prop
  | reject (p : Option String) (q : Params)
      (h : validateWsToken env p = none) :
      Step env cfg (.requested p q) [.respond 401 "Unauthorized"] (.rejected 401)
  | upgradeFail (p : Option String) (q : Params) (proto : String)
      (h : validateWsToken env p = some proto) :
      Step env cfg (.requested p q) [.respond 400 "WebSocket upgrade failed"] (.rejected 400)
  | upgrade (p : Option String) (q : Params) (proto : String)
      (h : validateWsToken env p = some proto) :
      Step env cfg (.requested p q) [] (.session proto (initSession q))
  | fire (proto : String) (s : Session) (e : Event) :
      Step env cfg (.session proto s) (handle cfg e s).2 (.session proto (handle cfg e s).1)

/-- Reachability: a finite sequence of steps, with the emitted actions
concatenated in order. -/
inductive Reach (env : AuthEnv) (cfg : Config) : ConnState → List Action → ConnState → Prop
  | refl (st : ConnState) : Reach env cfg st [] st
  | tail {st₀ st₁ st₂ : ConnState} {acts acts' : List Action} :
      Reach env cfg st₀ acts st₁ → Step env cfg st₁ acts' st₂ →
      Reach env cfg st₀ (acts ++ acts') st₂

/-! ## Shutdown coordinator (src/server.ts lines 411-446) -/

/-- The process-wide state the shutdown path touches: the `activeConnections`
registry (session identifiers), whether `Bun.serve` is accepting new
connections, and the exit status once `process.exit` ran. -/
structure ProcState where
  registry : List Nat
  accepting : Bool
  exitCode : Option Nat
deriving DecidableEq

/-- `activeConnections.forEach` with `try { ws.close() } catch { ... }`:
every registered connection gets a close attempt; an exception from one
attempt (`throws s = true`) is caught and logged, so the iteration
continues with the rest.  Returns the close attempts in order, paired with
whether the attempt threw. -/
def forEachClose (throws : Nat → Bool) : List Nat → List (Nat × Bool)
  | [] => []
  | s :: rest => (s, throws s) :: forEachClose throws rest

/-- The result of `gracefulShutdown`: which sessions got a close attempt,
and the process state after `server.stop()` and `process.exit(0)`. -/
structure ShutdownResult where
  closeAttempts : List (Nat × Bool)
  finalState : ProcState
deriving DecidableEq

/-- `gracefulShutdown(signal)`: close every connection in the registry
(each attempt guarded by its own try/catch), stop the server from
accepting new connections (`server.stop()`), then `process.exit(0)`. -/
def gracefulShutdown (throws : Nat → Bool) (st : ProcState) : ShutdownResult :=
  { closeAttempts := forEachClose throws st.registry
  , finalState := { st with accepting := false, exitCode := some 0 } }

/-- The live sessions a process still holds: none once it has exited —
`process.exit` tears down every socket and the registry with the process. -/
def liveSessions (st : ProcState) : List Nat :=
  if st.exitCode.isSome then [] else st.registry

/-- The four process-level triggers registered in src/server.ts lines
434-446: two operator signals and two unhandled-fault events. -/
inductive ShutdownTrigger where
  | sigterm
  | sigint
  | uncaughtException
  | unhandledRejection
deriving DecidableEq

/-- Every trigger's registered handler calls `gracefulShutdown` (the signal
name argument only feeds the log line). -/
def handleTrigger (_ : ShutdownTrigger) (throws : Nat → Bool) (st : ProcState) :
    ShutdownResult :=
  gracefulShutdown throws st

/-! ## Structure of the built URL -/

/-- The query parameters `buildDeepgramUrl` produces, in program order: the
`token` auth parameter, the six required parameters (client value when
truthy, else the default), then one entry per optional parameter the
client supplied. -/
theorem buildDeepgramUrl_params (cfg : Config) (q : Params) :
    (buildDeepgramUrl cfg q).params =
      [("token", cfg.deepgramApiKey),
       ("model", jsOr (getParam q "model") "nova-3"),
       ("language", jsOr (getParam q "language") "en"),
       ("encoding", jsOr (getParam q "encoding") "linear16"),
       ("sample_rate", jsOr (getParam q "sample_rate") "16000"),
       ("channels", jsOr (getParam q "channels") "1"),
       ("smart_format", jsOr (getParam q "smart_format") "true")]
      ++ optEntry q "punctuate" ++ optEntry q "diarize" ++ optEntry q "filler_words" := by
  rcases h1 : getParam q "punctuate" with _ | v1 <;>
  rcases h2 : getParam q "diarize" with _ | v2 <;>
  rcases h3 : getParam q "filler_words" with _ | v3 <;>
    simp [buildDeepgramUrl, optEntry, setParam, h1, h2, h3]

/-- A value read from the options is one of the option values. -/
theorem getParam_mem_values (q : Params) (k v : String) (h : getParam q k = some v) :
    ∃ kv ∈ q, kv.2 = v := by
  unfold getParam at h
  rcases ho : q.find? (fun kv => kv.1 == k) with _ | kv' <;> rw [ho] at h <;>
    simp at h
  exact ⟨kv', List.mem_of_find?_eq_some ho, h⟩

/-- A pair in an optional entry carries the client-supplied value. -/
theorem mem_optEntry (q : Params) (k : String) (kv : String × String)
    (h : kv ∈ optEntry q k) : getParam q k = some kv.2 := by
  unfold optEntry at h
  rcases hg : getParam q k with _ | v <;> rw [hg] at h <;> simp at h
  rw [h]

/-- Each required parameter of the built URL is the `||`-fallback of the
client value over the documented default. -/
theorem getParam_build_required (cfg : Config) (q : Params) (k d : String)
    (h : (k, d) ∈ requiredDefaults) :
    getParam (buildDeepgramUrl cfg q).params k = some (jsOr (getParam q k) d) := by
  rw [buildDeepgramUrl_params]
  simp only [requiredDefaults, List.mem_cons, List.not_mem_nil, or_false,
    Prod.mk.injEq] at h
  rcases h with ⟨rfl, rfl⟩ | ⟨rfl, rfl⟩ | ⟨rfl, rfl⟩ | ⟨rfl, rfl⟩ | ⟨rfl, rfl⟩ | ⟨rfl, rfl⟩ <;>
    simp [getParam, List.find?_append, List.find?]

/-- No parameter value of the built URL is a string foreign to the server
credential, the client options' values and the fixed defaults; in
particular the client's session JWT, which is none of these, never reaches
the upstream URL. -/
theorem build_no_foreign_value (cfg : Config) (q : Params) (cred : String)
    (hkey : cred ≠ cfg.deepgramApiKey)
    (hq : ∀ kv ∈ q, kv.2 ≠ cred)
    (hdef : cred ∉ ["nova-3", "en", "linear16", "16000", "1", "true"]) :
    ∀ kv ∈ (buildDeepgramUrl cfg q).params, kv.2 ≠ cred := by
  have hval : ∀ k v, getParam q k = some v → v ≠ cred := by
    intro k v hg hc
    obtain ⟨kv', hm, he⟩ := getParam_mem_values q k v hg
    exact hq kv' hm (he.trans hc)
  have hjs : ∀ k d, d ≠ cred → jsOr (getParam q k) d ≠ cred := by
    intro k d hd
    rcases hg : getParam q k with _ | v
    · simpa [jsOr] using hd
    · by_cases hv : v = ""
      · simpa [jsOr, hv] using hd
      · simpa [jsOr, hv] using hval k v hg
  simp only [List.mem_cons, List.not_mem_nil, or_false] at hdef
  push_neg at hdef
  obtain ⟨d1, d2, d3, d4, d5, d6⟩ := hdef
  rw [buildDeepgramUrl_params]
  intro kv hkv
  simp only [List.mem_append, List.mem_cons, List.not_mem_nil, or_false] at hkv
  rcases hkv with (((rfl | rfl | rfl | rfl | rfl | rfl | rfl) | hp) | hd) | hf
  · exact fun hc => hkey (hc ▸ rfl)
  · exact hjs "model" "nova-3" (Ne.symm d1)
  · exact hjs "language" "en" (Ne.symm d2)
  · exact hjs "encoding" "linear16" (Ne.symm d3)
  · exact hjs "sample_rate" "16000" (Ne.symm d4)
  · exact hjs "channels" "1" (Ne.symm d5)
  · exact hjs "smart_format" "true" (Ne.symm d6)
  · exact hval _ _ (mem_optEntry q "punctuate" kv hp)
  · exact hval _ _ (mem_optEntry q "diarize" kv hd)
  · exact hval _ _ (mem_optEntry q "filler_words" kv hf)

/-! ## Validator and handler unfolding lemmas -/

/-- Unfolding of the validator on a present header. -/
theorem validateWsToken_some_eq (env : AuthEnv) (raw : String) :
    validateWsToken env (some raw) =
      (match ((jsSplit raw ',').map jsTrim).find?
          (fun p => jsStartsWith p "access_token.") with
       | none => none
       | some tokenProto =>
         if env.verify (jsSlice tokenProto ("access_token.".length)) then some tokenProto
         else none) := rfl

/-- The client-close handler when the upstream socket is not open: only the
registry deregistration happens; the upstream handle is left untouched. -/
theorem handle_clientClosed_not_opened (cfg : Config) (s : Session)
    (code : Nat) (reason : String) (h : s.upstream ≠ some .opened) :
    handle cfg (.clientClosed code reason) s =
      ({ s with clientState := .closed, registered := false }, [.registryDelete]) := by
  rcases hu : s.upstream with _ | rs
  · simp [handle, hu]
  · rcases rs
    · simp [handle, hu]
    · exact absurd hu h
    · simp [handle, hu]
    · simp [handle, hu]

/-- The client-close handler when the upstream socket is open: deregister
and close the upstream with the fixed normal-closure code and reason. -/
theorem handle_clientClosed_opened (cfg : Config) (s : Session)
    (code : Nat) (reason : String) (h : s.upstream = some .opened) :
    handle cfg (.clientClosed code reason) s =
      ({ s with clientState := .closed, registered := false
              , upstream := some .closing
              , upstreamCloseInfo := some (1000, "Client disconnected") },
       [.registryDelete, .upstreamClose 1000 "Client disconnected"]) := by
  simp [handle, h]

/-- The message handler when the upstream socket is not open: nothing
happens — no forward, no state change, no buffering. -/
theorem handle_clientMessage_not_opened (cfg : Config) (s : Session) (m : Msg)
    (h : s.upstream ≠ some .opened) :
    handle cfg (.clientMessage m) s = (s, []) := by
  rcases hu : s.upstream with _ | rs
  · simp [handle, hu]
  · rcases rs
    · simp [handle, hu]
    · exact absurd hu h
    · simp [handle, hu]
    · simp [handle, hu]

/-- Every registered session receives a close attempt, in registry order,
whether or not any attempt throws. -/
theorem forEachClose_fst (throws : Nat → Bool) (l : List Nat) :
    (forEachClose throws l).map Prod.fst = l := by
  induction l with
  | nil => rfl
  | cons a t ih => simp [forEachClose, ih]

/-- A registered session's close attempt, with its own outcome, is in the
attempt list — independently of every other session's outcome. -/
theorem mem_forEachClose (throws : Nat → Bool) (l : List Nat) (s : Nat)
    (h : s ∈ l) : (s, throws s) ∈ forEachClose throws l := by
  induction l with
  | nil => cases h
  | cons a t ih =>
    rcases List.mem_cons.mp h with rfl | hm
    · simp [forEachClose]
    · simp [forEachClose]
      exact Or.inr (ih hm)

/-! ## Claim theorems -/

/-- C2, counterexample to the claim as stated: in the Connection Options
`[("model", "")]` the `model` option is present with the client-supplied
value `""`, yet the built URL carries `model=nova-3` — the default, not the
client value — because line 116 uses the JS `||` fallback, for which the
empty string is falsy. -/
theorem required_param_empty_counterexample :
    getParam [("model", "")] "model" = some ""
    ∧ getParam (buildDeepgramUrl ⟨"key"⟩ [("model", "")]).params "model" = some "nova-3"
    ∧ getParam (buildDeepgramUrl ⟨"key"⟩ [("model", "")]).params "model" ≠ some "" := by
  exact ⟨by decide, by decide, by decide⟩

/-- C2 (amended): each required parameter of the built URL equals the
client-supplied value when that option is present with a non-empty value,
and otherwise (option absent, or present with the empty string) equals the
exact documented default; for empty Connection Options the URL contains
exactly the `token` parameter followed by
`model=nova-3, language=en, encoding=linear16, sample_rate=16000,
channels=1, smart_format=true`. -/
theorem buildDeepgramUrl_required_params (cfg : Config) (q : Params) :
    (∀ k d, (k, d) ∈ requiredDefaults →
       (∀ v, getParam q k = some v → v ≠ "" →
          getParam (buildDeepgramUrl cfg q).params k = some v)
       ∧ ((getParam q k = none ∨ getParam q k = some "") →
          getParam (buildDeepgramUrl cfg q).params k = some d))
    ∧ (buildDeepgramUrl cfg []).params =
        ("token", cfg.deepgramApiKey) :: requiredDefaults := by
  constructor
  · intro k d hm
    have h := getParam_build_required cfg q k d hm
    constructor
    · intro v hv hne
      rw [h, hv]
      simp [jsOr, hne]
    · intro hc
      rcases hc with hc | hc <;> rw [h, hc] <;> simp [jsOr]
  · rw [buildDeepgramUrl_params]
    simp [getParam, optEntry, requiredDefaults, jsOr, List.find?]

/-- Witness for C2 at a concrete input: a present, non-empty `language`
option is passed through unchanged. -/
theorem buildDeepgramUrl_required_params_witness :
    getParam (buildDeepgramUrl ⟨"key"⟩ [("language", "de")]).params "language" = some "de" :=
  ((buildDeepgramUrl_required_params ⟨"key"⟩ [("language", "de")]).1 "language" "en"
      (by decide)).1 "de" (by decide) (by decide)

/-- C3: the built URL carries a `punctuate`, `diarize` or `filler_words`
parameter exactly when that option is present in the Connection Options,
and then with the client-supplied value unmodified: the built URL's lookup
for these keys equals the options' own lookup, so absence maps to absence
and presence maps to the same value. -/
theorem buildDeepgramUrl_optional_params (cfg : Config) (q : Params) (k : String)
    (h : k ∈ ["punctuate", "diarize", "filler_words"]) :
    getParam (buildDeepgramUrl cfg q).params k = getParam q k := by
  rw [buildDeepgramUrl_params]
  simp only [List.mem_cons, List.not_mem_nil, or_false] at h
  rcases h with rfl | rfl | rfl <;>
  rcases h1 : getParam q "punctuate" with _ | v1 <;>
  rcases h2 : getParam q "diarize" with _ | v2 <;>
  rcases h3 : getParam q "filler_words" with _ | v3 <;>
    simp only [optEntry, h1, h2, h3] <;>
    simp [getParam, List.find?_append, List.find?]

/-- Witness for C3 at a concrete input: a client-supplied `punctuate`
value appears unmodified, by the theorem's lookup equation. -/
theorem buildDeepgramUrl_optional_params_witness :
    getParam (buildDeepgramUrl ⟨"key"⟩ [("punctuate", "false")]).params "punctuate"
      = getParam [("punctuate", "false")] "punctuate" :=
  buildDeepgramUrl_optional_params ⟨"key"⟩ [("punctuate", "false")] "punctuate" (by decide)

/-- C4: the `token` parameter of the built URL is the server-held upstream
credential, for every Connection Options mapping; two invocations with
different options yield the same `token` parameter; and a client session
credential — any string distinct from the server credential, from every
option value and from the fixed defaults — never occurs as a parameter
value of the built URL. -/
theorem buildDeepgramUrl_auth_param (cfg : Config) :
    (∀ q, getParam (buildDeepgramUrl cfg q).params "token" = some cfg.deepgramApiKey)
    ∧ (∀ q₁ q₂, getParam (buildDeepgramUrl cfg q₁).params "token"
        = getParam (buildDeepgramUrl cfg q₂).params "token")
    ∧ (∀ q cred, cred ≠ cfg.deepgramApiKey → (∀ kv ∈ q, kv.2 ≠ cred) →
        cred ∉ ["nova-3", "en", "linear16", "16000", "1", "true"] →
        ∀ kv ∈ (buildDeepgramUrl cfg q).params, kv.2 ≠ cred) := by
  have htok : ∀ q, getParam (buildDeepgramUrl cfg q).params "token"
      = some cfg.deepgramApiKey := by
    intro q
    rw [buildDeepgramUrl_params]
    simp [getParam, List.find?_append, List.find?]
  exact ⟨htok, fun q₁ q₂ => (htok q₁).trans (htok q₂).symm,
    fun q cred => build_no_foreign_value cfg q cred⟩

/-- Witness for C4 at a concrete input: the auth parameter is the server
key, and a distinct client JWT is not the value of the `token` entry. -/
theorem buildDeepgramUrl_auth_param_witness :
    getParam (buildDeepgramUrl ⟨"serverkey"⟩ [("model", "nova-2")]).params "token"
        = some "serverkey"
    ∧ ("token", "serverkey").2 ≠ "clientjwt" :=
  ⟨(buildDeepgramUrl_auth_param ⟨"serverkey"⟩).1 [("model", "nova-2")],
   (buildDeepgramUrl_auth_param ⟨"serverkey"⟩).2.2 [("model", "nova-2")] "clientjwt"
     (by decide) (by decide) (by decide) ("token", "serverkey") (by decide)⟩

/-- C8: the validator considers exactly the first trimmed comma-separated
entry with the `access_token.` prefix and, on success, returns that full
entry with its verification passing; a missing header, a header without a
matching entry, and a matching entry failing verification all return the
one failure value `none`, indistinguishable to the caller. -/
theorem validateWsToken_contract (env : AuthEnv) :
    (∀ p s, validateWsToken env p = some s →
       ∃ raw, p = some raw
         ∧ ((jsSplit raw ',').map jsTrim).find?
             (fun t => jsStartsWith t "access_token.") = some s
         ∧ env.verify (jsSlice s ("access_token.".length)) = true)
    ∧ validateWsToken env none = none
    ∧ (∀ raw, ((jsSplit raw ',').map jsTrim).find?
          (fun t => jsStartsWith t "access_token.") = none →
        validateWsToken env (some raw) = none)
    ∧ (∀ raw s, ((jsSplit raw ',').map jsTrim).find?
          (fun t => jsStartsWith t "access_token.") = some s →
        env.verify (jsSlice s ("access_token.".length)) = false →
        validateWsToken env (some raw) = none) := by
  refine ⟨?_, rfl, ?_, ?_⟩
  · intro p s h
    cases p with
    | none => simp [validateWsToken] at h
    | some raw =>
      refine ⟨raw, rfl, ?_⟩
      rw [validateWsToken_some_eq] at h
      rcases hf : ((jsSplit raw ',').map jsTrim).find?
          (fun t => jsStartsWith t "access_token.") with _ | tp <;> rw [hf] at h
      · simp at h
      · dsimp only at h
        rcases hv : env.verify (jsSlice tp ("access_token.".length)) with _ | _ <;>
          rw [hv] at h <;> simp at h
        obtain rfl := h
        exact ⟨rfl, hv⟩
  · intro raw hf
    rw [validateWsToken_some_eq, hf]
  · intro raw s hf hv
    rw [validateWsToken_some_eq, hf]
    dsimp only
    simp [hv]

/-- Witness for C8 at a concrete input: a well-formed entry whose JWT fails
verification yields the same `none` as a missing header. -/
theorem validateWsToken_contract_witness :
    validateWsToken ⟨fun _ => false⟩ (some "audio, access_token.abc") = none :=
  (validateWsToken_contract ⟨fun _ => false⟩).2.2.2 "audio, access_token.abc"
    "access_token.abc" (by decide) (by decide)

/-- C5: on an upstream close event with code `c` and reason `r`, the
Deepgram close listener's only call is `ws.close(c, r)` — the upstream's
own code and reason verbatim, never a substituted generic code — and when
the client socket is still open it is closed with exactly `(c, r)`. -/
theorem upstream_close_propagated_verbatim (cfg : Config) (s : Session)
    (code : Nat) (reason : String) :
    (handle cfg (.upstreamClosed code reason) s).2 = [.clientClose code reason]
    ∧ (s.clientState = .opened →
        (handle cfg (.upstreamClosed code reason) s).1.clientCloseInfo
          = some (code, reason)) := by
  constructor
  · rfl
  · intro h
    simp [handle, h]

/-- Witness for C5 at the spec's example: upstream closing with code 1011
and reason "server error" closes the client with code 1011 and reason
"server error". -/
theorem upstream_close_propagated_verbatim_witness :
    (handle ⟨"key"⟩ (.upstreamClosed 1011 "server error")
        ⟨.opened, some .opened, [], true, none, none⟩).1.clientCloseInfo
      = some (1011, "server error") :=
  (upstream_close_propagated_verbatim ⟨"key"⟩
    ⟨.opened, some .opened, [], true, none, none⟩ 1011 "server error").2 rfl

/-- C6: on every client close event the session is deregistered from the
registry, and when the upstream socket is open at that moment it is closed
with the normal-closure code 1000 and the fixed reason
"Client disconnected"; the handler's calls do not depend on the client
close's own code and reason. -/
theorem client_close_cleanup (cfg : Config) (s : Session)
    (code : Nat) (reason : String) :
    (handle cfg (.clientClosed code reason) s).1.registered = false
    ∧ Action.registryDelete ∈ (handle cfg (.clientClosed code reason) s).2
    ∧ (s.upstream = some .opened →
        (handle cfg (.clientClosed code reason) s).2
            = [.registryDelete, .upstreamClose 1000 "Client disconnected"]
        ∧ (handle cfg (.clientClosed code reason) s).1.upstreamCloseInfo
            = some (1000, "Client disconnected"))
    ∧ (∀ code' reason', handle cfg (.clientClosed code reason) s
        = handle cfg (.clientClosed code' reason') s) := by
  by_cases h : s.upstream = some .opened
  · rw [handle_clientClosed_opened cfg s code reason h]
    refine ⟨rfl, by simp, fun _ => ⟨rfl, rfl⟩, ?_⟩
    intro code' reason'
    rw [handle_clientClosed_opened cfg s code' reason' h]
  · rw [handle_clientClosed_not_opened cfg s code reason h]
    refine ⟨rfl, by simp, fun hc => absurd hc h, ?_⟩
    intro code' reason'
    rw [handle_clientClosed_not_opened cfg s code' reason' h]

/-- Witness for C6 at a concrete active session: the upstream receives the
normal-closure code and the client-initiated-closure reason. -/
theorem client_close_cleanup_witness :
    (handle ⟨"key"⟩ (.clientClosed 1001 "going away")
        ⟨.opened, some .opened, [], true, none, none⟩).2
      = [.registryDelete, .upstreamClose 1000 "Client disconnected"] :=
  ((client_close_cleanup ⟨"key"⟩ ⟨.opened, some .opened, [], true, none, none⟩
      1001 "going away").2.2.1 rfl).1

/-- C7: a client message is forwarded upstream exactly when the upstream
handle is present and in the open state; otherwise the handler does
nothing at all — no forward, no queueing, the session state unchanged —
and the message handler never modifies the session state. -/
theorem client_message_forwarding (cfg : Config) (s : Session) (m : Msg) :
    ((handle cfg (.clientMessage m) s).2 = [.upstreamSend m]
        ↔ s.upstream = some .opened)
    ∧ (s.upstream ≠ some .opened → handle cfg (.clientMessage m) s = (s, []))
    ∧ (handle cfg (.clientMessage m) s).1 = s := by
  by_cases h : s.upstream = some .opened
  · refine ⟨⟨fun _ => h, fun _ => by simp [handle, h]⟩, fun hc => absurd h hc, ?_⟩
    simp [handle, h]
  · rw [handle_clientMessage_not_opened cfg s m h]
    exact ⟨⟨fun hc => by simp at hc, fun hc => absurd hc h⟩, fun _ => rfl, rfl⟩

/-- Witness for C7 at a concrete input: a binary frame arriving before the
upstream handle exists is dropped with no state change. -/
theorem client_message_forwarding_witness :
    handle ⟨"key"⟩ (.clientMessage (.binary [1, 2, 3]))
        ⟨.opened, none, [], true, none, none⟩
      = (⟨.opened, none, [], true, none, none⟩, []) :=
  (client_message_forwarding ⟨"key"⟩ ⟨.opened, none, [], true, none, none⟩
    (.binary [1, 2, 3])).2.1 (by simp)

/-- C10: when the client closes while the upstream socket is still
connecting, the close handler only deregisters: the upstream handle keeps
its state and no upstream close call of any code or reason is made — the
in-flight connection attempt is not cancelled by the relay. -/
theorem client_close_upstream_connecting (cfg : Config) (s : Session)
    (code : Nat) (reason : String) (h : s.upstream = some .connecting) :
    (handle cfg (.clientClosed code reason) s).2 = [.registryDelete]
    ∧ (handle cfg (.clientClosed code reason) s).1.upstream = some .connecting
    ∧ ∀ c r, Action.upstreamClose c r ∉ (handle cfg (.clientClosed code reason) s).2 := by
  have hne : s.upstream ≠ some .opened := by rw [h]; simp
  rw [handle_clientClosed_not_opened cfg s code reason hne]
  exact ⟨rfl, h, fun c r => by simp⟩

/-- Witness for C10 at a concrete input: closing the client during the
upstream handshake emits only the deregistration. -/
theorem client_close_upstream_connecting_witness :
    (handle ⟨"key"⟩ (.clientClosed 1005 "")
        ⟨.opened, some .connecting, [], true, none, none⟩).2 = [.registryDelete] :=
  (client_close_upstream_connecting ⟨"key"⟩
    ⟨.opened, some .connecting, [], true, none, none⟩ 1005 "" rfl).1

/-- C1: when token validation fails, the only step a connection can take is
the 401 rejection — the one action is the `Unauthorized` response — and
along every run from such a request no `createUpstream` action ever occurs
and the connection never reaches a session state (so the `open` handler,
the only place the upstream WebSocket is constructed, never runs). -/
theorem fetch_unauthorized_no_upstream (env : AuthEnv) (cfg : Config)
    (p : Option String) (q : Params)
    (hauth : validateWsToken env p = none) :
    (∀ acts st', Step env cfg (.requested p q) acts st' →
        acts = [.respond 401 "Unauthorized"] ∧ st' = .rejected 401)
    ∧ (∀ acts st', Reach env cfg (.requested p q) acts st' →
        (∀ u, Action.createUpstream u ∉ acts)
        ∧ (st' = .requested p q ∨ st' = .rejected 401)) := by
  have hstep : ∀ acts st', Step env cfg (.requested p q) acts st' →
      acts = [.respond 401 "Unauthorized"] ∧ st' = .rejected 401 := by
    intro acts st' hs
    cases hs with
    | reject _ _ _ => exact ⟨rfl, rfl⟩
    | upgradeFail _ _ proto h => rw [hauth] at h; cases h
    | upgrade _ _ proto h => rw [hauth] at h; cases h
  refine ⟨hstep, ?_⟩
  suffices hg : ∀ st₀ acts st', Reach env cfg st₀ acts st' → st₀ = .requested p q →
      (∀ u, Action.createUpstream u ∉ acts)
      ∧ (st' = .requested p q ∨ st' = .rejected 401) by
    exact fun acts st' hr => hg _ acts st' hr rfl
  intro st₀ acts st' hr
  induction hr with
  | refl => intro he; exact ⟨fun u => by simp, Or.inl he⟩
  | tail hr hs ih =>
    intro he
    obtain ⟨hnone, hst⟩ := ih he
    rcases hst with rfl | rfl
    · obtain ⟨ha, rfl⟩ := hstep _ _ hs
      refine ⟨?_, Or.inr rfl⟩
      intro u hu
      rcases List.mem_append.mp hu with hm | hm
      · exact hnone u hm
      · rw [ha] at hm
        simp at hm
    · cases hs

/-- Witness for C1 at a concrete input: with a missing negotiation header
the single reachable run emits only the 401 response, and no upstream
creation action is in it. -/
theorem fetch_unauthorized_no_upstream_witness :
    Action.createUpstream ⟨deepgramSttUrl, []⟩
      ∉ ([] ++ [Action.respond 401 "Unauthorized"]) :=
  ((fetch_unauthorized_no_upstream ⟨fun _ => false⟩ ⟨"key"⟩ none [] rfl).2
      ([] ++ [Action.respond 401 "Unauthorized"]) (.rejected 401)
      (Reach.tail (Reach.refl _) (Step.reject none [] rfl))).1
    ⟨deepgramSttUrl, []⟩

/-- C9: on a shutdown trigger, every session in the registry receives a
close attempt (in registry order, each with its own outcome, so one
attempt throwing does not prevent the rest), the server stops accepting
new connections, the process exits with status 0, and the exited process
holds no live session; all four triggers — the two operator signals and
the two process-wide fault events — invoke the identical handler. -/
theorem gracefulShutdown_contract (throws : Nat → Bool) (st : ProcState) :
    ((gracefulShutdown throws st).closeAttempts.map Prod.fst = st.registry)
    ∧ (∀ s, s ∈ st.registry →
        (s, throws s) ∈ (gracefulShutdown throws st).closeAttempts)
    ∧ (gracefulShutdown throws st).finalState.accepting = false
    ∧ (gracefulShutdown throws st).finalState.exitCode = some 0
    ∧ liveSessions (gracefulShutdown throws st).finalState = []
    ∧ (∀ t t' : ShutdownTrigger, handleTrigger t throws st = handleTrigger t' throws st) := by
  refine ⟨forEachClose_fst throws st.registry,
    fun s hs => mem_forEachClose throws st.registry s hs, rfl, rfl, ?_, fun t t' => rfl⟩
  simp [liveSessions, gracefulShutdown]

/-- Witness for C9 at a concrete input: with three registered sessions and
the close of session 1 throwing, all three sessions still get close
attempts, in order, and session 2's attempt happens after the throw. -/
theorem gracefulShutdown_contract_witness :
    ((gracefulShutdown (fun n => n == 1) ⟨[0, 1, 2], true, none⟩).closeAttempts.map
        Prod.fst = [0, 1, 2])
    ∧ (2, false) ∈ (gracefulShutdown (fun n => n == 1)
        ⟨[0, 1, 2], true, none⟩).closeAttempts :=
  ⟨(gracefulShutdown_contract (fun n => n == 1) ⟨[0, 1, 2], true, none⟩).1,
   (gracefulShutdown_contract (fun n => n == 1) ⟨[0, 1, 2], true, none⟩).2.1 2 (by decide)⟩

end LiveTranscription
